import Mathlib

/-
Verification development for the origamiUROP repository.

Shallow embedding of:
  origamiUROP/tools.py          -- DNANode and DNAEdge (geometry core)
  protocols/block-dna/louise_gen.py -- the parameter sweep loop

Conventions of the embedding:
  * numpy arrays of shape (3,) over floats become the record Vec3 over the reals;
  * a float that can be NaN becomes PyFloat (val r | nan), and a numpy vector
    whose components are all NaN (the 0/0 case in unit_vector) becomes the
    value none of Option Vec3;
  * Python functions that can raise become Except PyErr valued functions;
  * the external generate_helix collaborator is abstracted as a function
    argument receiving the HelixArgs record that DNAEdge.strand builds;
  * the warning print in DNAEdge.strand becomes a Bool component of the result.
-/

noncomputable section

/-- Real 3-vector, modelling a numpy array of shape (3,) holding floats. -/
structure Vec3 where
  x : ℝ
  y : ℝ
  z : ℝ

/-- Componentwise subtraction, as numpy broadcasts it over shape (3,). -/
def Vec3.sub (a b : Vec3) : Vec3 := ⟨a.x - b.x, a.y - b.y, a.z - b.z⟩

/-- Componentwise negation. -/
def Vec3.neg (a : Vec3) : Vec3 := ⟨-a.x, -a.y, -a.z⟩

/-- Componentwise scalar multiplication; vector division v / s is smul (1/s) v. -/
def Vec3.smul (c : ℝ) (a : Vec3) : Vec3 := ⟨c * a.x, c * a.y, c * a.z⟩

instance : Sub Vec3 := ⟨Vec3.sub⟩

instance : Neg Vec3 := ⟨Vec3.neg⟩

/-- The zero vector, np.zeros(3). -/
def Vec3.zero : Vec3 := ⟨0, 0, 0⟩

/-- np.dot of two 3-vectors. -/
def Vec3.dot (a b : Vec3) : ℝ := a.x * b.x + a.y * b.y + a.z * b.z

/-- np.cross of two 3-vectors. -/
def Vec3.cross (a b : Vec3) : Vec3 :=
  ⟨a.y * b.z - a.z * b.y, a.z * b.x - a.x * b.z, a.x * b.y - a.y * b.x⟩

/-- Sum of squared components, (v ** 2).sum() in numpy. -/
def Vec3.sumSq (a : Vec3) : ℝ := a.x ^ 2 + a.y ^ 2 + a.z ^ 2

/-- Euclidean norm of a shape (3,) array: both np.linalg.norm(v) and
    (v ** 2).sum() ** 0.5 in the source compute the square root of the
    sum of squared components. -/
def Vec3.norm (a : Vec3) : ℝ := Real.sqrt a.sumSq

/-- Floating value that may be NaN, as produced by np.arccos outside its
    domain. -/
inductive PyFloat where
  | val (r : ℝ)
  | nan

/-- np.arccos: the inverse cosine on [-1, 1]; outside that interval numpy
    emits an invalid-value warning and returns NaN. -/
def npArccos (r : ℝ) : PyFloat :=
  if -1 ≤ r ∧ r ≤ 1 then PyFloat.val (Real.arccos r) else PyFloat.nan

/-- DNANode from tools.py: a shape (3,) array (the position) carrying the two
    optional direction fields _vector_3p and _vector_5p, both None after
    __init__. -/
structure DNANode where
  position : Vec3
  vector_3p : Option Vec3 := none
  vector_5p : Option Vec3 := none

/-- DNANode.__init__(position): copies the position, leaves both direction
    vectors None. -/
def DNANode.init (p : Vec3) : DNANode := ⟨p, none, none⟩

/-- DNANode.angle property, translated from the source verbatim: None when
    either direction vector is unset, otherwise
    np.arccos(np.dot(-self._vector_3p, self._vector_5p)) --
    no normalisation of the two vectors and no clamping of the dot product. -/
def DNANode.angle (n : DNANode) : Option PyFloat :=
  match n.vector_3p with
  | none => none
  | some u =>
    match n.vector_5p with
    | none => none
    | some w => some (npArccos (Vec3.dot (Vec3.neg u) w))

/-- Kinds of Python exception observed in the modelled code paths. -/
inductive PyErr where
  | typeError
  | valueError
deriving DecidableEq

/-- DNAEdge from tools.py: the ordered pair of vertices as they stand after
    __init__ has performed its side effects on them. -/
structure DNAEdge where
  vertex_1 : DNANode
  vertex_2 : DNANode

/-- Edge vector property: self.vertices[1] - self.vertices[0] (the node arrays
    are the positions). -/
def DNAEdge.vector (e : DNAEdge) : Vec3 := e.vertex_2.position - e.vertex_1.position

/-- DNAEdge.__init__ on two nodes (raw arrays are first wrapped by
    DNANode.init): stores the vertex pair, then sets
    vertices[0].vector_5p = self.vector and vertices[1].vector_3p = -self.vector.
    The body contains no raise statement and no check on the positions, so the
    result is always ok. -/
def DNAEdge.init (vertex_1 vertex_2 : DNANode) : Except PyErr DNAEdge :=
  let vec := vertex_2.position - vertex_1.position
  Except.ok
    { vertex_1 := { vertex_1 with vector_5p := some vec },
      vertex_2 := { vertex_2 with vector_3p := some (-vec) } }

/-- The DNAEdge value produced by DNAEdge.__init__ on two raw points
    (construction always succeeds; see DNAEdge.init_ofPoints). -/
def DNAEdge.ofPoints (p q : Vec3) : DNAEdge :=
  { vertex_1 := { position := p, vector_3p := none, vector_5p := some (q - p) },
    vertex_2 := { position := q, vector_3p := some (-(q - p)), vector_5p := none } }

/-- DNAEdge.length property: np.linalg.norm(vertices[1] - vertices[0]). -/
def DNAEdge.length (e : DNAEdge) : ℝ := Vec3.norm e.vector

/-- Python int() applied to a float: truncation toward zero. -/
def pyInt (r : ℝ) : ℤ := if 0 ≤ r then ⌊r⌋ else ⌈r⌉

/-- DNAEdge.nt_length property: int(self.length * 2.45). -/
def DNAEdge.nt_length (e : DNAEdge) : ℤ := pyInt (e.length * 2.45)

/-- DNAEdge.unit_vector property: self.vector / (self.vector ** 2).sum() ** 0.5.
    The divisor is zero exactly when the vector is zero, in which case every
    component is 0/0 = NaN in numpy; that NaN vector is modelled as none. -/
def DNAEdge.unit_vector (e : DNAEdge) : Option Vec3 :=
  if Real.sqrt (Vec3.sumSq e.vector) = 0 then none
  else some (Vec3.smul (1 / Real.sqrt (Vec3.sumSq e.vector)) e.vector)

/-- DNAEdge.perp_vector property: np.cross(self.unit_vector, np.array([0,0,1])).
    A NaN unit vector propagates to a NaN cross product. -/
def DNAEdge.perp_vector (e : DNAEdge) : Option Vec3 :=
  Option.map (fun u => Vec3.cross u ⟨0, 0, 1⟩) e.unit_vector

/-- Python truthiness of the optional sequence argument of DNAEdge.strand:
    None and the empty string are falsy. -/
def pyTruthyStr : Option String → Bool
  | none => false
  | some t => !(t == "")

/-- Branch structure at the top of DNAEdge.strand: `if not sequence` selects
    self.nt_length as the count, otherwise the count is len(sequence) and the
    warning print is reached when len(sequence) >= self.nt_length.
    Result: (count passed to generate_helix, whether the warning printed). -/
def DNAEdge.strandSetup (e : DNAEdge) (sequence : Option String) : ℤ × Bool :=
  if pyTruthyStr sequence = false then
    (e.nt_length, false)
  else
    ((sequence.getD "").length, decide (e.nt_length ≤ ((sequence.getD "").length : ℤ)))

/-- Argument record of the generate_helix call issued by DNAEdge.strand; the
    kwargs component stands for the opaque caller pass-through options. -/
structure HelixArgs (K : Type) where
  bp : ℤ
  sequence : Option String
  start_pos : Vec3
  back_orient_a1 : Option Vec3
  base_orient_a3 : Option Vec3
  kwargs : K

/-- DNAEdge.strand: picks the nucleotide count (possibly printing the warning),
    calls generate_helix (abstracted as the function argument gen) with
    bp = count, sequence = the argument as given, start_pos = vertices[0],
    back_orient_a1 = self.perp_vector, base_orient_a3 = self.unit_vector and
    the kwargs, and returns the resulting strands unchanged. The Bool
    component records whether the warning was printed; the body has no raise
    statement, so the call always happens and strand never fails. -/
def DNAEdge.strand {K S : Type} (gen : HelixArgs K → List S)
    (e : DNAEdge) (sequence : Option String) (kwargs : K) : Bool × List S :=
  let setup := e.strandSetup sequence
  (setup.2,
    gen { bp := setup.1, sequence := sequence, start_pos := e.vertex_1.position,
          back_orient_a1 := e.perp_vector, base_orient_a3 := e.unit_vector,
          kwargs := kwargs })

/-- Python truthiness of an optional DNANode argument: None is falsy, while
    bool() of a DNANode -- a numpy array of three elements -- raises
    ValueError (ambiguous truth value of a multi-element array). -/
def nodeTruthy : Option DNANode → Except PyErr Bool
  | none => Except.ok false
  | some _ => Except.error PyErr.valueError

/-- Python `a or b` on optional DNANode arguments: evaluates bool(a) (which
    can raise), returns a when truthy and b otherwise. -/
def pyOrNode (a b : Option DNANode) : Except PyErr (Option DNANode) :=
  match nodeTruthy a with
  | Except.error e => Except.error e
  | Except.ok true => Except.ok a
  | Except.ok false => Except.ok b

/-- Python `a and b` on optional DNANode arguments. -/
def pyAndNode (a b : Option DNANode) : Except PyErr (Option DNANode) :=
  match nodeTruthy a with
  | Except.error e => Except.error e
  | Except.ok true => Except.ok b
  | Except.ok false => Except.ok a

/-- DNAEdge.node, translated from the source with Python dynamic semantics:
    the guard `if not (node_3p or node_5p) or (node_3p and node_5p)` raises
    TypeError when it evaluates to True, but evaluating the truthiness of a
    DNANode raises ValueError first whenever an actual node is supplied.
    The two pass branches fall through to an implicit `return None`; the final
    else raises TypeError ("Shouldn't get to this point"). -/
def DNAEdge.node (_e : DNAEdge) (node_3p node_5p : Option DNANode) :
    Except PyErr (Option DNANode) := do
  let r1 ← pyOrNode node_3p node_5p
  let b1 ← nodeTruthy r1
  if !b1 then
    Except.error PyErr.typeError
  else do
    let r2 ← pyAndNode node_3p node_5p
    let b2 ← nodeTruthy r2
    if b2 then
      Except.error PyErr.typeError
    else do
      let b3 ← nodeTruthy node_3p
      if b3 then
        Except.ok none
      else do
        let b5 ← nodeTruthy node_5p
        if b5 then
          Except.ok none
        else
          Except.error PyErr.typeError

/-- Runtime-typed numeric value, to model Python isinstance checks. -/
inductive PyNum where
  | intVal (n : ℤ)
  | floatVal (q : ℚ)
deriving DecidableEq

/-- Python 3 true division `/` of two integers: the result is always a float
    (numpy int64 / numpy int64 yields numpy float64), never an int, even when
    the division is exact. -/
def pyTrueDiv (a b : ℤ) : PyNum := PyNum.floatVal ((a : ℚ) / (b : ℚ))

/-- isinstance(x, int): true only for values of runtime integer type; a float
    is never an instance of int regardless of its value. -/
def isinstanceInt : PyNum → Bool
  | PyNum.intVal _ => true
  | PyNum.floatVal _ => false

/-- np.arange(start, stop, step) for a positive integer step: start,
    start + step, ... strictly below stop. -/
def np_arange (start stop step : ℤ) : List ℤ :=
  (List.range ((stop - start + step - 1) / step).toNat).map
    (fun i => start + step * (i : ℤ))

/-- Sweep loop of louise_gen.py over the three enumerated ranges: for every
    (i, j, k) combination, check = tot_length[i] / (ds_length[j] + ss_length[k])
    is formed by true division and generate_system runs only when
    isinstance(check, int) == True. Returns the list of argument triples passed
    to generate_system, in loop order. -/
def sweepInvocations (tot ds ss : List ℤ) : List (ℤ × ℤ × ℤ) :=
  tot.flatMap (fun t =>
    ds.flatMap (fun d =>
      ss.filterMap (fun s =>
        if isinstanceInt (pyTrueDiv t (d + s)) then some (t, d, s) else none)))

/-- Modelled from the spec: the sweep invokes the system-assembly function
    exactly for the combinations in which the total length is evenly divisible
    by the sum of the double-stranded and single-stranded lengths. -/
def sweepInvocationsSpec (tot ds ss : List ℤ) : List (ℤ × ℤ × ℤ) :=
  tot.flatMap (fun t =>
    ds.flatMap (fun d =>
      ss.filterMap (fun s =>
        if t % (d + s) = 0 then some (t, d, s) else none)))

/-- Main body of louise_gen.py: builds the three np.arange ranges from the
    parsed (start, step, stop) command-line triples -- np.arange(a[0], a[2]+1,
    a[1]) for each -- and runs the sweep loop over them. -/
def louise_sweep (number dstrand sstrand : ℤ × ℤ × ℤ) : List (ℤ × ℤ × ℤ) :=
  sweepInvocations
    (np_arange number.1 (number.2.2 + 1) number.2.1)
    (np_arange dstrand.1 (dstrand.2.2 + 1) dstrand.2.1)
    (np_arange sstrand.1 (sstrand.2.2 + 1) sstrand.2.1)

/-- Concrete edge built from (0,0,0) and (2,0,0); its length is 2. -/
def edge2 : DNAEdge := DNAEdge.ofPoints ⟨0, 0, 0⟩ ⟨2, 0, 0⟩

/-- Concrete edge built from (0,0,0) and (4.1,0,0); its length is 4.1. -/
def edge41 : DNAEdge := DNAEdge.ofPoints ⟨0, 0, 0⟩ ⟨4.1, 0, 0⟩

/-- Concrete helix generator used to instantiate theorems about strand:
    records the bp argument it was called with. -/
def bpGen : HelixArgs Unit → List ℤ := fun a => [a.bp]

theorem Vec3.sub_def (a b : Vec3) : a - b = ⟨a.x - b.x, a.y - b.y, a.z - b.z⟩ := rfl

theorem Vec3.neg_def (a : Vec3) : -a = ⟨-a.x, -a.y, -a.z⟩ := rfl

theorem Vec3.sumSq_nonneg (v : Vec3) : 0 ≤ v.sumSq := by
  simp only [Vec3.sumSq]
  positivity

theorem Vec3.sumSq_eq_zero_iff (v : Vec3) : v.sumSq = 0 ↔ v = Vec3.zero := by
  cases v with
  | mk x y z =>
    simp only [Vec3.sumSq, Vec3.zero, Vec3.mk.injEq]
    constructor
    · intro h
      have hx : x ^ 2 = 0 := by nlinarith [sq_nonneg x, sq_nonneg y, sq_nonneg z]
      have hy : y ^ 2 = 0 := by nlinarith [sq_nonneg x, sq_nonneg y, sq_nonneg z]
      have hz : z ^ 2 = 0 := by nlinarith [sq_nonneg x, sq_nonneg y, sq_nonneg z]
      exact ⟨by nlinarith, by nlinarith, by nlinarith⟩
    · rintro ⟨hx, hy, hz⟩
      rw [hx, hy, hz]
      ring

theorem Vec3.sub_eq_zero_iff (a b : Vec3) : a - b = Vec3.zero ↔ a = b := by
  cases a
  cases b
  simp [Vec3.sub_def, Vec3.zero, Vec3.mk.injEq, sub_eq_zero]

theorem Vec3.sumSq_smul (c : ℝ) (v : Vec3) :
    (Vec3.smul c v).sumSq = c ^ 2 * v.sumSq := by
  simp only [Vec3.smul, Vec3.sumSq]
  ring

theorem Vec3.norm_smul (c : ℝ) (v : Vec3) :
    (Vec3.smul c v).norm = |c| * v.norm := by
  simp only [Vec3.norm, Vec3.sumSq_smul,
    Real.sqrt_mul (sq_nonneg c), Real.sqrt_sq_eq_abs]

theorem Vec3.dot_neg_left (a b : Vec3) :
    Vec3.dot (Vec3.neg a) b = -(Vec3.dot a b) := by
  simp only [Vec3.dot, Vec3.neg]
  ring

theorem Vec3.dot_neg_right (a b : Vec3) :
    Vec3.dot a (Vec3.neg b) = -(Vec3.dot a b) := by
  simp only [Vec3.dot, Vec3.neg]
  ring

theorem Vec3.dot_cross_left (a b : Vec3) :
    Vec3.dot (Vec3.cross a b) a = 0 := by
  simp only [Vec3.dot, Vec3.cross]
  ring

theorem Real.sqrt_four_eq : Real.sqrt 4 = 2 := by
  rw [show (4 : ℝ) = 2 ^ 2 by norm_num, Real.sqrt_sq (by norm_num : (0:ℝ) ≤ 2)]

theorem edge2_vector : edge2.vector = ⟨2, 0, 0⟩ := by
  simp only [edge2, DNAEdge.ofPoints, DNAEdge.vector, Vec3.sub_def, Vec3.mk.injEq]
  norm_num

theorem edge2_length : edge2.length = 2 := by
  simp only [DNAEdge.length, edge2_vector, Vec3.norm]
  rw [show Vec3.sumSq ⟨2, 0, 0⟩ = 4 by norm_num [Vec3.sumSq], Real.sqrt_four_eq]

theorem edge2_nt_length : edge2.nt_length = 4 := by
  simp only [DNAEdge.nt_length, pyInt, edge2_length]
  rw [if_pos (by norm_num : (0:ℝ) ≤ 2 * 2.45)]
  rw [show (2 : ℝ) * 2.45 = 4.9 by norm_num]
  rw [Int.floor_eq_iff]
  constructor <;> norm_num

theorem edge2_unit_vector : edge2.unit_vector = some ⟨1, 0, 0⟩ := by
  simp only [DNAEdge.unit_vector, edge2_vector]
  rw [show Vec3.sumSq ⟨2, 0, 0⟩ = 4 by norm_num [Vec3.sumSq], Real.sqrt_four_eq]
  rw [if_neg (by norm_num : ¬(2:ℝ) = 0)]
  simp only [Vec3.smul, Vec3.mk.injEq]
  norm_num

theorem edge41_vector : edge41.vector = ⟨4.1, 0, 0⟩ := by
  simp only [edge41, DNAEdge.ofPoints, DNAEdge.vector, Vec3.sub_def, Vec3.mk.injEq]
  norm_num

theorem edge41_length : edge41.length = 4.1 := by
  simp only [DNAEdge.length, edge41_vector, Vec3.norm]
  rw [show Vec3.sumSq ⟨4.1, 0, 0⟩ = (4.1 : ℝ) ^ 2 by norm_num [Vec3.sumSq]]
  rw [Real.sqrt_sq (by norm_num : (0:ℝ) ≤ 4.1)]

/-- C1, counterexample. Take the colinear points A = (0,0,0), B = (1,0,0),
    C = (2,0,0) and the Node at B with vector_3p = B - A = (1,0,0) and
    vector_5p = C - B = (1,0,0): the code returns arccos(-1) = pi, not a value
    near 0 as the claim states (pi exceeds 3). Moreover, with the same
    configuration scaled to non-unit vectors (A = (0,0,0), B = (2,0,0),
    C = (4,0,0)), the unnormalised, unclamped dot product is -4 and the code
    returns NaN instead of the claimed arccos of a clamped normalised dot
    product. -/
theorem C1_counterexample :
    DNANode.angle
        { position := ⟨1, 0, 0⟩, vector_3p := some ⟨1, 0, 0⟩,
          vector_5p := some ⟨1, 0, 0⟩ }
      = some (PyFloat.val Real.pi)
    ∧ 3 < Real.pi
    ∧ DNANode.angle
        { position := ⟨2, 0, 0⟩, vector_3p := some ⟨2, 0, 0⟩,
          vector_5p := some ⟨2, 0, 0⟩ }
      = some PyFloat.nan := by
  refine ⟨?_, Real.pi_gt_three, ?_⟩
  · have h1 : DNANode.angle
        { position := ⟨1, 0, 0⟩, vector_3p := some ⟨1, 0, 0⟩,
          vector_5p := some ⟨1, 0, 0⟩ }
        = some (npArccos (Vec3.dot (Vec3.neg ⟨1, 0, 0⟩) ⟨1, 0, 0⟩)) := rfl
    rw [h1, show Vec3.dot (Vec3.neg ⟨1, 0, 0⟩) ⟨1, 0, 0⟩ = -1 by
      norm_num [Vec3.dot, Vec3.neg]]
    rw [npArccos, if_pos (by norm_num), Real.arccos_neg_one]
  · have h2 : DNANode.angle
        { position := ⟨2, 0, 0⟩, vector_3p := some ⟨2, 0, 0⟩,
          vector_5p := some ⟨2, 0, 0⟩ }
        = some (npArccos (Vec3.dot (Vec3.neg ⟨2, 0, 0⟩) ⟨2, 0, 0⟩)) := rfl
    rw [h2, show Vec3.dot (Vec3.neg ⟨2, 0, 0⟩) ⟨2, 0, 0⟩ = -4 by
      norm_num [Vec3.dot, Vec3.neg]]
    rw [npArccos, if_neg (by norm_num)]

/-- C1, amended. The angle property computes
    arccos(dot(-vector_3p, vector_5p)) with no normalisation and no clamping;
    when the dot product leaves [-1, 1] the result is NaN. For a unit vector d
    (dot d d = 1), a node with vector_3p = d and vector_5p = d (straight
    colinear continuation) has angle pi, and with vector_5p = -d (reversal)
    has angle 0 -- the opposite of the values in the claim. -/
theorem C1_amended_angle (p d : Vec3) (h : Vec3.dot d d = 1) :
    DNANode.angle { position := p, vector_3p := some d, vector_5p := some d }
      = some (PyFloat.val Real.pi)
    ∧ DNANode.angle
        { position := p, vector_3p := some d, vector_5p := some (Vec3.neg d) }
      = some (PyFloat.val 0) := by
  constructor
  · have h1 : DNANode.angle
        { position := p, vector_3p := some d, vector_5p := some d }
        = some (npArccos (Vec3.dot (Vec3.neg d) d)) := rfl
    rw [h1, Vec3.dot_neg_left, h]
    rw [npArccos, if_pos (by norm_num), Real.arccos_neg_one]
  · have h2 : DNANode.angle
        { position := p, vector_3p := some d, vector_5p := some (Vec3.neg d) }
        = some (npArccos (Vec3.dot (Vec3.neg d) (Vec3.neg d))) := rfl
    rw [h2, Vec3.dot_neg_left, Vec3.dot_neg_right, h]
    rw [npArccos, if_pos (by norm_num)]
    norm_num [Real.arccos_one]

/-- C1, witness for the amended theorem at the concrete unit vector (1,0,0). -/
theorem C1_angle_witness :
    Vec3.dot ⟨1, 0, 0⟩ ⟨1, 0, 0⟩ = 1
    ∧ DNANode.angle
        { position := ⟨0, 0, 0⟩, vector_3p := some ⟨1, 0, 0⟩,
          vector_5p := some ⟨1, 0, 0⟩ }
      = some (PyFloat.val Real.pi) := by
  have h : Vec3.dot ⟨1, 0, 0⟩ ⟨1, 0, 0⟩ = 1 := by norm_num [Vec3.dot]
  exact ⟨h, (C1_amended_angle ⟨0, 0, 0⟩ ⟨1, 0, 0⟩ h).1⟩

/-- C2, counterexample. Edge((0,0,0),(0,0,0)) does not fail: __init__ contains
    no validity check, construction returns the edge normally, and the
    unit_vector of the resulting zero-length edge is the silent NaN vector the
    claim says must not be produced. -/
theorem C2_counterexample :
    DNAEdge.init (DNANode.init ⟨0, 0, 0⟩) (DNANode.init ⟨0, 0, 0⟩)
      = Except.ok (DNAEdge.ofPoints ⟨0, 0, 0⟩ ⟨0, 0, 0⟩)
    ∧ (DNAEdge.ofPoints ⟨0, 0, 0⟩ ⟨0, 0, 0⟩).unit_vector = none := by
  refine ⟨rfl, ?_⟩
  simp only [DNAEdge.unit_vector]
  rw [show Vec3.sumSq (DNAEdge.ofPoints ⟨0, 0, 0⟩ ⟨0, 0, 0⟩).vector = 0 by
    norm_num [DNAEdge.ofPoints, DNAEdge.vector, Vec3.sub_def, Vec3.sumSq]]
  rw [Real.sqrt_zero, if_pos rfl]

/-- C2, amended. Constructing an Edge from two endpoints with identical
    positions succeeds without raising any error; the resulting edge has the
    zero vector and its unit_vector is NaN (modelled as none). -/
theorem C2_amended_init (p : Vec3) :
    DNAEdge.init (DNANode.init p) (DNANode.init p)
      = Except.ok (DNAEdge.ofPoints p p)
    ∧ (DNAEdge.ofPoints p p).vector = Vec3.zero
    ∧ (DNAEdge.ofPoints p p).unit_vector = none := by
  have hv : (DNAEdge.ofPoints p p).vector = Vec3.zero :=
    (Vec3.sub_eq_zero_iff p p).mpr rfl
  refine ⟨rfl, hv, ?_⟩
  simp only [DNAEdge.unit_vector, hv]
  rw [show Vec3.sumSq Vec3.zero = 0 by norm_num [Vec3.sumSq, Vec3.zero]]
  rw [Real.sqrt_zero, if_pos rfl]

/-- C3. With a non-empty sequence, strand passes bp = len(sequence) to the
    generator, warns exactly when len(sequence) >= nt_length and always still
    invokes the generator; with no sequence it passes bp = nt_length and never
    warns. In both cases the call carries the given sequence, start position
    = the first node, back_orient_a1 = perp_vector, base_orient_a3 =
    unit_vector and the caller kwargs, and the generator output is returned
    unchanged. -/
theorem C3_strand_call {K S : Type} (gen : HelixArgs K → List S) (e : DNAEdge)
    (kwargs : K) (s : String) (hs : s ≠ "") :
    DNAEdge.strand gen e (some s) kwargs
      = (decide (e.nt_length ≤ (s.length : ℤ)),
         gen { bp := (s.length : ℤ), sequence := some s,
               start_pos := e.vertex_1.position,
               back_orient_a1 := e.perp_vector,
               base_orient_a3 := e.unit_vector, kwargs := kwargs })
    ∧ DNAEdge.strand gen e none kwargs
      = (false,
         gen { bp := e.nt_length, sequence := none,
               start_pos := e.vertex_1.position,
               back_orient_a1 := e.perp_vector,
               base_orient_a3 := e.unit_vector, kwargs := kwargs }) := by
  have ht : pyTruthyStr (some s) = true := by
    simp [pyTruthyStr, hs]
  constructor
  · simp [DNAEdge.strand, DNAEdge.strandSetup, ht]
  · simp [DNAEdge.strand, DNAEdge.strandSetup, pyTruthyStr]

/-- C3, witness: on edge2 (nt_length = 4) with sequence "ACGT" of length 4,
    the generator is still invoked with bp = 4 and the warning fires. -/
theorem C3_strand_witness :
    ("ACGT" : String) ≠ ""
    ∧ DNAEdge.strand bpGen edge2 (some "ACGT") ()
        = (true, [(4 : ℤ)]) := by
  have hs : ("ACGT" : String) ≠ "" := by decide
  refine ⟨hs, ?_⟩
  rw [(C3_strand_call bpGen edge2 () "ACGT" hs).1]
  simp only [bpGen, edge2_nt_length, show ("ACGT" : String).length = 4 from rfl]
  norm_num

/-- C4. The nucleotide length is the floor of length times 2.45 (int()
    truncates toward zero and the length, a Euclidean norm, is nonnegative);
    it is monotonically non-decreasing in the length, an edge of length 2 has
    nt_length 4 and an edge of length 4.1 has nt_length 10. -/
theorem C4_nt_length :
    (∀ e : DNAEdge, e.nt_length = ⌊e.length * (2.45 : ℝ)⌋)
    ∧ (∀ d₁ d₂ : DNAEdge, d₁.length ≤ d₂.length → d₁.nt_length ≤ d₂.nt_length)
    ∧ (∀ e : DNAEdge, e.length = 2 → e.nt_length = 4)
    ∧ (∀ e : DNAEdge, e.length = (4.1 : ℝ) → e.nt_length = 10) := by
  have key : ∀ e : DNAEdge, e.nt_length = ⌊e.length * (2.45 : ℝ)⌋ := by
    intro e
    simp only [DNAEdge.nt_length, pyInt]
    have h0 : (0 : ℝ) ≤ e.length := Real.sqrt_nonneg _
    rw [if_pos (mul_nonneg h0 (by norm_num : (0:ℝ) ≤ (2.45 : ℝ)))]
  refine ⟨key, ?_, ?_, ?_⟩
  · intro d₁ d₂ h
    rw [key d₁, key d₂]
    exact Int.floor_le_floor (mul_le_mul_of_nonneg_right h (by norm_num))
  · intro e he
    rw [key e, he, show (2 : ℝ) * 2.45 = 4.9 by norm_num]
    rw [Int.floor_eq_iff]
    constructor <;> norm_num
  · intro e he
    rw [key e, he, show (4.1 : ℝ) * 2.45 = 10.045 by norm_num]
    rw [Int.floor_eq_iff]
    constructor <;> norm_num

/-- C4, witness at the concrete edges of lengths 2 and 4.1. -/
theorem C4_nt_length_witness :
    edge2.length ≤ edge41.length
    ∧ edge2.nt_length = 4
    ∧ edge41.nt_length = 10
    ∧ edge2.nt_length ≤ edge41.nt_length := by
  have hle : edge2.length ≤ edge41.length := by
    rw [edge2_length, edge41_length]
    norm_num
  exact ⟨hle, C4_nt_length.2.2.1 edge2 edge2_length,
    C4_nt_length.2.2.2 edge41 edge41_length,
    C4_nt_length.2.1 edge2 edge41 hle⟩

/-- C5, evaluation at the failing inputs. Supplying both hints, or exactly
    one hint, as actual DNANodes makes node() raise ValueError (the ambiguous
    truth value of a numpy array inside the guard), not the TypeError-style
    InvalidArgument the claim describes; only the call with neither hint
    reaches the intended TypeError. -/
theorem C5_node_eval :
    DNAEdge.node edge2 (some (DNANode.init ⟨0, 0, 0⟩))
        (some (DNANode.init ⟨2, 0, 0⟩)) = Except.error PyErr.valueError
    ∧ DNAEdge.node edge2 (some (DNANode.init ⟨0, 0, 0⟩)) none
        = Except.error PyErr.valueError
    ∧ DNAEdge.node edge2 none (some (DNANode.init ⟨2, 0, 0⟩))
        = Except.error PyErr.valueError
    ∧ DNAEdge.node edge2 none none = Except.error PyErr.typeError :=
  ⟨rfl, rfl, rfl, rfl⟩

/-- C6. Immediately after Edge(A, B) on two distinct points, the first node
    has vector_5p = B - A and position A with vector_3p still unset, and the
    second node has vector_3p = -(B - A) and position B with vector_5p still
    unset: no other field of either node is touched. -/
theorem C6_init_vectors (A B : Vec3) (_h : A ≠ B) :
    DNAEdge.init (DNANode.init A) (DNANode.init B)
      = Except.ok
          { vertex_1 := { position := A, vector_3p := none,
                          vector_5p := some (B - A) },
            vertex_2 := { position := B, vector_3p := some (-(B - A)),
                          vector_5p := none } } := rfl

/-- C6, witness at the distinct points (0,0,0) and (1,0,0). -/
theorem C6_init_witness :
    ((⟨0, 0, 0⟩ : Vec3) ≠ ⟨1, 0, 0⟩)
    ∧ DNAEdge.init (DNANode.init ⟨0, 0, 0⟩) (DNANode.init ⟨1, 0, 0⟩)
        = Except.ok
            { vertex_1 := { position := ⟨0, 0, 0⟩, vector_3p := none,
                            vector_5p := some ((⟨1, 0, 0⟩ : Vec3) - ⟨0, 0, 0⟩) },
              vertex_2 := { position := ⟨1, 0, 0⟩,
                            vector_3p := some (-((⟨1, 0, 0⟩ : Vec3) - ⟨0, 0, 0⟩)),
                            vector_5p := none } } := by
  have hne : (⟨0, 0, 0⟩ : Vec3) ≠ ⟨1, 0, 0⟩ := by
    intro hh
    have hx : (0 : ℝ) = 1 := congrArg Vec3.x hh
    norm_num at hx
  exact ⟨hne, C6_init_vectors ⟨0, 0, 0⟩ ⟨1, 0, 0⟩ hne⟩

/-- C7. For a non-degenerate edge the unit vector exists, perp_vector is the
    cross product of the unit vector with (0,0,1), that cross product is
    orthogonal to the unit vector, and it is the zero vector exactly when the
    edge vector is parallel to the z-axis (x and y components both zero); no
    error is raised in that degenerate case. -/
theorem C7_perp_vector (e : DNAEdge) (h : e.vector ≠ Vec3.zero) :
    (e.unit_vector).isSome = true
    ∧ e.perp_vector
        = some (Vec3.cross ((e.unit_vector).getD Vec3.zero) ⟨0, 0, 1⟩)
    ∧ Vec3.dot ((e.perp_vector).getD Vec3.zero) ((e.unit_vector).getD Vec3.zero)
        = 0
    ∧ ((e.perp_vector).getD Vec3.zero = Vec3.zero
        ↔ e.vector.x = 0 ∧ e.vector.y = 0) := by
  have hS : 0 < Vec3.sumSq e.vector := by
    rcases lt_or_eq_of_le (Vec3.sumSq_nonneg e.vector) with h1 | h1
    · exact h1
    · exact absurd ((Vec3.sumSq_eq_zero_iff e.vector).mp h1.symm) h
  have hs : 0 < Real.sqrt (Vec3.sumSq e.vector) := Real.sqrt_pos.mpr hS
  have hu : e.unit_vector
      = some (Vec3.smul (1 / Real.sqrt (Vec3.sumSq e.vector)) e.vector) := by
    simp only [DNAEdge.unit_vector]
    rw [if_neg hs.ne']
  have hp : e.perp_vector
      = some (Vec3.cross
          (Vec3.smul (1 / Real.sqrt (Vec3.sumSq e.vector)) e.vector)
          ⟨0, 0, 1⟩) := by
    simp only [DNAEdge.perp_vector, hu, Option.map_some']
  have hinv : 1 / Real.sqrt (Vec3.sumSq e.vector) ≠ 0 := one_div_ne_zero hs.ne'
  refine ⟨by rw [hu]; rfl, by rw [hp, hu]; simp only [Option.getD_some], ?_, ?_⟩
  · rw [hp, hu]
    simp only [Option.getD_some]
    exact Vec3.dot_cross_left _ _
  · rw [hp]
    simp only [Option.getD_some]
    have hc : Vec3.cross
        (Vec3.smul (1 / Real.sqrt (Vec3.sumSq e.vector)) e.vector) ⟨0, 0, 1⟩
        = ⟨(1 / Real.sqrt (Vec3.sumSq e.vector)) * e.vector.y,
           -((1 / Real.sqrt (Vec3.sumSq e.vector)) * e.vector.x), 0⟩ := by
      simp only [Vec3.cross, Vec3.smul, Vec3.mk.injEq]
      refine ⟨by ring, by ring, by ring⟩
    rw [hc]
    constructor
    · intro hz
      have hy := congrArg Vec3.x hz
      have hx := congrArg Vec3.y hz
      simp only [Vec3.zero] at hx hy
      constructor
      · have := (mul_eq_zero.mp (by linarith [hx] :
          (1 / Real.sqrt (Vec3.sumSq e.vector)) * e.vector.x = 0))
        rcases this with h1 | h1
        · exact absurd h1 hinv
        · exact h1
      · rcases mul_eq_zero.mp hy with h1 | h1
        · exact absurd h1 hinv
        · exact h1
    · rintro ⟨hx, hy⟩
      rw [hx, hy]
      simp [Vec3.zero, Vec3.mk.injEq]

/-- C7, witness at the concrete edge from (0,0,0) to (2,0,0). -/
theorem C7_perp_witness :
    edge2.vector ≠ Vec3.zero
    ∧ ((edge2.unit_vector).isSome = true
       ∧ edge2.perp_vector
           = some (Vec3.cross ((edge2.unit_vector).getD Vec3.zero) ⟨0, 0, 1⟩)
       ∧ Vec3.dot ((edge2.perp_vector).getD Vec3.zero)
           ((edge2.unit_vector).getD Vec3.zero) = 0
       ∧ ((edge2.perp_vector).getD Vec3.zero = Vec3.zero
           ↔ edge2.vector.x = 0 ∧ edge2.vector.y = 0)) := by
  have h : edge2.vector ≠ Vec3.zero := by
    rw [edge2_vector]
    intro hh
    have hx : (2 : ℝ) = 0 := congrArg Vec3.x hh
    norm_num at hx
  exact ⟨h, C7_perp_vector edge2 h⟩

/-- C8. Reversing the endpoints of an edge between distinct points preserves
    the length, negates the edge vector and negates the unit vector, and the
    unit vector of any such edge has Euclidean norm exactly 1. -/
theorem C8_reverse_edges (a b : Vec3) (h : a ≠ b) :
    (DNAEdge.ofPoints a b).length = (DNAEdge.ofPoints b a).length
    ∧ (DNAEdge.ofPoints a b).vector = -((DNAEdge.ofPoints b a).vector)
    ∧ (DNAEdge.ofPoints a b).unit_vector
        = Option.map Vec3.neg ((DNAEdge.ofPoints b a).unit_vector)
    ∧ Option.map Vec3.norm ((DNAEdge.ofPoints a b).unit_vector) = some 1 := by
  have hvab : (DNAEdge.ofPoints a b).vector = b - a := rfl
  have hvba : (DNAEdge.ofPoints b a).vector = a - b := rfl
  have hsum : Vec3.sumSq (b - a) = Vec3.sumSq (a - b) := by
    simp only [Vec3.sub_def, Vec3.sumSq]
    ring
  have hne : b - a ≠ Vec3.zero := fun hz =>
    h (((Vec3.sub_eq_zero_iff b a).mp hz).symm)
  have hS : 0 < Vec3.sumSq (b - a) := by
    rcases lt_or_eq_of_le (Vec3.sumSq_nonneg (b - a)) with h1 | h1
    · exact h1
    · exact absurd ((Vec3.sumSq_eq_zero_iff (b - a)).mp h1.symm) hne
  have hs : 0 < Real.sqrt (Vec3.sumSq (b - a)) := Real.sqrt_pos.mpr hS
  refine ⟨?_, ?_, ?_, ?_⟩
  · simp only [DNAEdge.length, hvab, hvba, Vec3.norm, hsum]
  · simp only [hvab, hvba, Vec3.sub_def, Vec3.neg_def, Vec3.mk.injEq]
    refine ⟨by ring, by ring, by ring⟩
  · simp only [DNAEdge.unit_vector, hvab, hvba, hsum.symm]
    rw [if_neg hs.ne', if_neg hs.ne', Option.map_some']
    simp only [Vec3.smul, Vec3.neg, Vec3.sub_def, Option.some.injEq, Vec3.mk.injEq]
    refine ⟨by ring, by ring, by ring⟩
  · simp only [DNAEdge.unit_vector, hvab]
    rw [if_neg hs.ne', Option.map_some']
    rw [Vec3.norm_smul]
    rw [abs_of_pos (by positivity : 0 < 1 / Real.sqrt (Vec3.sumSq (b - a)))]
    rw [show Vec3.norm (b - a) = Real.sqrt (Vec3.sumSq (b - a)) from rfl]
    rw [one_div_mul_cancel hs.ne']

/-- C8, witness at the distinct points (0,0,0) and (2,0,0). -/
theorem C8_reverse_witness :
    ((⟨0, 0, 0⟩ : Vec3) ≠ ⟨2, 0, 0⟩)
    ∧ ((DNAEdge.ofPoints ⟨0, 0, 0⟩ ⟨2, 0, 0⟩).length
          = (DNAEdge.ofPoints ⟨2, 0, 0⟩ ⟨0, 0, 0⟩).length
       ∧ (DNAEdge.ofPoints ⟨0, 0, 0⟩ ⟨2, 0, 0⟩).vector
          = -((DNAEdge.ofPoints ⟨2, 0, 0⟩ ⟨0, 0, 0⟩).vector)
       ∧ (DNAEdge.ofPoints ⟨0, 0, 0⟩ ⟨2, 0, 0⟩).unit_vector
          = Option.map Vec3.neg ((DNAEdge.ofPoints ⟨2, 0, 0⟩ ⟨0, 0, 0⟩).unit_vector)
       ∧ Option.map Vec3.norm ((DNAEdge.ofPoints ⟨0, 0, 0⟩ ⟨2, 0, 0⟩).unit_vector)
          = some 1) := by
  have hne : (⟨0, 0, 0⟩ : Vec3) ≠ ⟨2, 0, 0⟩ := by
    intro hh
    have hx : (0 : ℝ) = 2 := congrArg Vec3.x hh
    norm_num at hx
  exact ⟨hne, C8_reverse_edges ⟨0, 0, 0⟩ ⟨2, 0, 0⟩ hne⟩

/-- C9, evaluation. With ranges [10], [4] and [1] the combination
    (10, 4, 1) has 10 evenly divisible by 4 + 1 = 5, so the claim (and the
    spec-modelled filter) require generate_system to run for it; the code
    never invokes generate_system for it because tot/(ds+ss) is a float by
    true division and isinstance(float, int) is always False. In fact the
    sweep loop invokes generate_system for no combination at all, whatever
    the ranges. -/
theorem C9_sweep_eval :
    sweepInvocations [10] [4] [1] = []
    ∧ sweepInvocationsSpec [10] [4] [1] = [(10, 4, 1)]
    ∧ louise_sweep (10, 1, 10) (4, 1, 4) (1, 1, 1) = []
    ∧ ∀ tot dsl ssl : List ℤ, sweepInvocations tot dsl ssl = [] := by
  refine ⟨rfl, by decide, by decide, ?_⟩
  intro tot dsl ssl
  simp only [sweepInvocations, pyTrueDiv, isinstanceInt]
  simp

/-- C10. Calling strand with the empty string is treated like passing no
    sequence: the count handed to the generator is nt_length and no warning
    fires, for every edge. -/
theorem C10_empty_sequence {K S : Type} (gen : HelixArgs K → List S)
    (e : DNAEdge) (kwargs : K) :
    DNAEdge.strand gen e (some "") kwargs
      = (false,
         gen { bp := e.nt_length, sequence := some "",
               start_pos := e.vertex_1.position,
               back_orient_a1 := e.perp_vector,
               base_orient_a3 := e.unit_vector, kwargs := kwargs }) := by
  simp [DNAEdge.strand, DNAEdge.strandSetup, pyTruthyStr]

end
